import Mathlib

/-!
Shallow embedding of `src/fastapi-rest-graphql.py`: a minimal blog backend
(user registration/login with bcrypt password hashing via passlib, JWT token
issuance via python-jose, and post listing/creation) exposed over REST and
GraphQL, backed by SQLite through SQLAlchemy.

Modelling conventions:
* The SQLite store is a pair of tables `users` / `posts`, embedded as lists of
  records.  A fresh primary key is `max existing id + 1` (SQLite rowid
  behaviour for an `INTEGER PRIMARY KEY` column).
* The engine is `create_engine("sqlite:///./test.db")` with default settings:
  SQLite enforces `UNIQUE` column constraints but does NOT enforce declared
  `FOREIGN KEY` constraints (the `foreign_keys` pragma is off by default and
  the code installs no event listener to enable it).  The embedding of
  `db.commit()` therefore checks username uniqueness but not the
  `posts.owner_id` foreign key.
* Python exceptions are embedded as `Except PyErr`; a handler that raises
  returns `Except.error`.
* passlib's bcrypt hashing is external library code; it is embedded as an
  idealised salted scheme: the salt (chosen at random by passlib per call) is
  an explicit parameter, and the digest is a per-salt injective function of
  the password (idealising "distinct passwords verify false with overwhelming
  probability" as certainty).  `CryptContext.verify` identifies the hash
  format first and raises `UnknownHashError` (a `ValueError`) when the string
  is not a recognisable hash, per passlib's documented behaviour; this is
  embedded as the `PHash.malformed` branch.
* python-jose's `jwt.encode` is embedded as a structured signed container
  holding the claims, the signing key and the algorithm identifier;
  `jwtDecode` recovers the claims.
-/

/-- Python exceptions that the handlers can surface. -/
inductive PyErr where
  | httpException (status : Nat) (detail : String)
  | integrityError (msg : String)
  | unknownHashError
  | typeError (msg : String)
  deriving DecidableEq, Repr

/-- Digest of the idealised bcrypt scheme: each character shifted by the salt.
Injective in the password for a fixed salt. -/
def bcryptDigest (salt : Nat) (password : String) : List Nat :=
  password.data.map (fun c => c.toNat + salt)

/-- A password-hash string as passlib sees it: either a well-formed bcrypt
hash (salt and digest recoverable from the string) or a string that does not
parse as any known hash format. -/
inductive PHash where
  | bcrypt (salt : Nat) (digest : List Nat)
  | malformed (s : String)
  deriving DecidableEq, Repr

/-- `get_password_hash(password) = pwd_context.hash(password)` (line 34).
passlib picks a fresh random salt per call; the salt is the explicit first
argument here. -/
def get_password_hash (salt : Nat) (password : String) : PHash :=
  PHash.bcrypt salt (bcryptDigest salt password)

/-- `verify_password(plain_password, hashed_password) =
pwd_context.verify(plain_password, hashed_password)` (line 37).  passlib
first identifies the hash format; an unidentifiable hash raises
`UnknownHashError`, otherwise the plaintext is hashed with the embedded salt
and compared to the digest. -/
def verify_password (plain_password : String) (hashed_password : PHash) :
    Except PyErr Bool :=
  match hashed_password with
  | PHash.bcrypt salt digest =>
      Except.ok (decide (bcryptDigest salt plain_password = digest))
  | PHash.malformed _ => Except.error PyErr.unknownHashError

/-- Module-level constant `SECRET_KEY = "secret"` (line 17). -/
def SECRET_KEY : String := "secret"

/-- Module-level constant `ALGORITHM = "HS256"` (line 18). -/
def ALGORITHM : String := "HS256"

/-- Module-level constant `ACCESS_TOKEN_EXPIRE_MINUTES = 30` (line 19). -/
def ACCESS_TOKEN_EXPIRE_MINUTES : Nat := 30

/-- A JWT claim value: either a string (like `"sub"`) or a timestamp
(like `"exp"`, measured in seconds). -/
inductive ClaimVal where
  | str (s : String)
  | time (t : Nat)
  deriving DecidableEq, Repr

/-- A Python dict with string keys, as an association list with unique keys
in insertion order. -/
abbrev ClaimDict := List (String × ClaimVal)

/-- Python `d[k]` / membership lookup on a dict: first entry with the key. -/
def dictGet : ClaimDict → String → Option ClaimVal
  | [], _ => none
  | kv :: rest, k => if kv.1 = k then some kv.2 else dictGet rest k

/-- Python `d.update({k: v})`: replace the value at `k` keeping its position
if present, else append the new entry. -/
def dictUpdate : ClaimDict → String → ClaimVal → ClaimDict
  | [], k, v => [(k, v)]
  | kv :: rest, k, v =>
      if kv.1 = k then (k, v) :: rest else kv :: dictUpdate rest k v

/-- A signed JWT as produced by `jwt.encode(to_encode, SECRET_KEY,
algorithm=ALGORITHM)`: a compact token encoding the claims, signed with the
key under the fixed algorithm.  Embedded as a structured container. -/
structure JwtToken where
  claims : ClaimDict
  key : String
  alg : String
  deriving DecidableEq, Repr

/-- Decoding a JWT recovers the claims it encodes. -/
def jwtDecode (t : JwtToken) : ClaimDict := t.claims

/-- `create_access_token(data, expires_delta)` (lines 40-44): copy the data,
set `exp` to `datetime.utcnow() + expires_delta`, and sign.  The current time
`now` and the delta are in seconds. -/
def create_access_token (data : ClaimDict) (expires_delta : Nat) (now : Nat) :
    JwtToken :=
  let expire := now + expires_delta
  let to_encode := dictUpdate data "exp" (ClaimVal.time expire)
  { claims := to_encode, key := SECRET_KEY, alg := ALGORITHM }

/-- A row of the `users` table (class `User`, lines 46-51): integer primary
key, username with a `UNIQUE` constraint, password hash. -/
structure UserRec where
  id : Nat
  username : String
  hashed_password : PHash
  deriving DecidableEq, Repr

/-- A row of the `posts` table (class `Post`, lines 53-59): integer primary
key, title, content, and `owner_id` declared `ForeignKey("users.id")`. -/
structure PostRec where
  id : Nat
  title : String
  content : String
  owner_id : Nat
  deriving DecidableEq, Repr

/-- The SQLite database state: the two tables. -/
structure DB where
  users : List UserRec
  posts : List PostRec
  deriving DecidableEq, Repr

/-- The freshly created database (`Base.metadata.create_all`, line 72): both
tables empty. -/
def emptyDB : DB := { users := [], posts := [] }

/-- Next rowid SQLite assigns for an `INTEGER PRIMARY KEY` column:
one more than the largest id in the table. -/
def nextId (ids : List Nat) : Nat := ids.foldr max 0 + 1

/-- The REST response of a successful `/register` call (line 83):
`{"message": "User created"}`.  It carries no identifier. -/
structure RegisterResponse where
  message : String
  deriving DecidableEq, Repr

/-- `register(username, password)` (lines 76-83): hash the password, build a
`User` row, `db.add` + `db.commit`.  The commit enforces the `UNIQUE`
constraint on `username`: a duplicate raises `IntegrityError` and commits
nothing, leaving the store unchanged.  On success the new row is persisted
and the handler returns the fixed message. -/
def register (username password : String) (salt : Nat) (db : DB) :
    DB × Except PyErr RegisterResponse :=
  let hashed_password := get_password_hash salt password
  let user : UserRec :=
    { id := nextId (db.users.map UserRec.id)
      username := username
      hashed_password := hashed_password }
  if db.users.any (fun u => u.username = username) then
    (db, Except.error (PyErr.integrityError "UNIQUE constraint failed: users.username"))
  else
    ({ db with users := db.users ++ [user] }, Except.ok { message := "User created" })

/-- The REST response of a successful `/login` call (line 91). -/
structure LoginResponse where
  access_token : JwtToken
  token_type : String
  deriving DecidableEq, Repr

/-- `login(username, password)` (lines 85-91): look up the user by username;
if absent, or if password verification returns false, raise
`HTTPException(400, "Invalid credentials")`; otherwise issue a token for
`{"sub": user.username}` with a 30-minute expiry.  A `verify_password`
exception propagates out of the handler. -/
def login (username password : String) (now : Nat) (db : DB) :
    Except PyErr LoginResponse :=
  match db.users.find? (fun u => u.username = username) with
  | none => Except.error (PyErr.httpException 400 "Invalid credentials")
  | some user =>
      match verify_password password user.hashed_password with
      | Except.error e => Except.error e
      | Except.ok false => Except.error (PyErr.httpException 400 "Invalid credentials")
      | Except.ok true =>
          Except.ok
            { access_token :=
                create_access_token [("sub", ClaimVal.str user.username)]
                  (ACCESS_TOKEN_EXPIRE_MINUTES * 60) now
              token_type := "bearer" }

/-- `get_posts()` (lines 93-95): `db.query(Post).all()`, every row of the
posts table in insertion order. -/
def get_posts (db : DB) : List PostRec := db.posts

/-- The REST serialisation schema `PostResponse` (lines 64-70): only `id`,
`title` and `content`; the owner is not part of the response model. -/
structure PostResponse where
  id : Nat
  title : String
  content : String
  deriving DecidableEq, Repr

/-- The `response_model=List[PostResponse]` serialisation FastAPI applies to
the rows returned by `get_posts`. -/
def toPostResponse (p : PostRec) : PostResponse :=
  { id := p.id, title := p.title, content := p.content }

/-- `create_post(title, content, owner_id)` (lines 97-103): build a `Post`
row and `db.add` + `db.commit`.  Under the default SQLite engine the declared
`FOREIGN KEY` on `owner_id` is not enforced (the pragma is off), so the
insert succeeds whether or not the owner exists, and the handler returns the
persisted row. -/
def create_post (title content : String) (owner_id : Nat) (db : DB) :
    DB × Except PyErr PostRec :=
  let post : PostRec :=
    { id := nextId (db.posts.map PostRec.id)
      title := title
      content := content
      owner_id := owner_id }
  ({ db with posts := db.posts ++ [post] }, Except.ok post)

/-- The GraphQL type `PostType` (lines 105-110): a strawberry dataclass with
four required fields, `owner_id` included. -/
structure PostType where
  id : Nat
  title : String
  content : String
  owner_id : Nat
  deriving DecidableEq, Repr

/-- Keyword arguments supplied to the `PostType` dataclass constructor. -/
structure PostTypeKwargs where
  id : Option Nat
  title : Option String
  content : Option String
  owner_id : Option Nat
  deriving DecidableEq, Repr

/-- The dataclass `__init__` strawberry generates for `PostType`: every
declared field is a required parameter; a call missing one raises
`TypeError`. -/
def mkPostType (kw : PostTypeKwargs) : Except PyErr PostType :=
  match kw.id, kw.title, kw.content, kw.owner_id with
  | some i, some t, some c, some o =>
      Except.ok { id := i, title := t, content := c, owner_id := o }
  | _, _, _, _ =>
      Except.error (PyErr.typeError "missing required argument")

/-- The constructor call in the resolver (line 118):
`PostType(id=post.id, title=post.title, content=post.content)` — `owner_id`
is not passed. -/
def postsResolverItem (p : PostRec) : Except PyErr PostType :=
  mkPostType
    { id := some p.id, title := some p.title, content := some p.content
      owner_id := none }

/-- Left-to-right evaluation of a Python list comprehension whose body can
raise: the first exception aborts the whole comprehension. -/
def mapExcept {α β : Type} (f : α → Except PyErr β) : List α → Except PyErr (List β)
  | [] => Except.ok []
  | x :: xs =>
      match f x with
      | Except.error e => Except.error e
      | Except.ok y =>
          match mapExcept f xs with
          | Except.error e => Except.error e
          | Except.ok ys => Except.ok (y :: ys)

/-- `Query.posts` (lines 112-118): query all posts and build a `PostType`
for each via the comprehension. -/
def graphqlPosts (db : DB) : Except PyErr (List PostType) :=
  mapExcept postsResolverItem db.posts

/-- `get_db()` (lines 25-30) wrapped around a REST handler: acquire a session
(`SessionLocal()`), run the handler, and close the session in the `finally`
block, which runs on every exit path, whether the handler returned or raised.
`opened` counts the sessions currently open; the second component of the
result is the count after the request ends. -/
def runRest {α : Type} (handler : DB → DB × Except PyErr α) (db : DB)
    (opened : Nat) : (DB × Except PyErr α) × Nat :=
  let acquired := opened + 1
  let r := handler db
  (r, acquired - 1)

/-- `get_context()` (lines 120-121) wrapped around a GraphQL resolver: it
returns `{"db": SessionLocal()}` with no try/finally and no close anywhere,
so the session acquired for the request is still open when the request
ends. -/
def runGraphql {α : Type} (resolver : DB → Except PyErr α) (db : DB)
    (opened : Nat) : Except PyErr α × Nat :=
  let acquired := opened + 1
  (resolver db, acquired)

/-! ## Helper lemmas -/

/-- The idealised bcrypt digest is injective in the password for a fixed
salt. -/
theorem bcryptDigest_inj (salt : Nat) {p1 p2 : String}
    (h : bcryptDigest salt p1 = bcryptDigest salt p2) : p1 = p2 := by
  have hinj : Function.Injective (fun c : Char => c.toNat + salt) := by
    intro a b hab
    simp only [Nat.add_right_cancel_iff] at hab
    exact Char.eq_of_val_eq (UInt32.ext hab)
  have hdata := List.map_injective_iff.mpr hinj h
  cases p1; cases p2; simp_all

/-- Looking up the key just updated returns the new value. -/
theorem dictGet_dictUpdate_self (d : ClaimDict) (k : String) (v : ClaimVal) :
    dictGet (dictUpdate d k v) k = some v := by
  induction d with
  | nil => simp [dictUpdate, dictGet]
  | cons kv rest ih =>
      by_cases h : kv.1 = k
      · simp [dictUpdate, h, dictGet]
      · simp [dictUpdate, h, dictGet, ih]

/-- Updating one key leaves lookups of every other key unchanged. -/
theorem dictGet_dictUpdate_ne (d : ClaimDict) (k k2 : String) (v : ClaimVal)
    (h : k2 ≠ k) : dictGet (dictUpdate d k v) k2 = dictGet d k2 := by
  induction d with
  | nil =>
      have hne : ¬k = k2 := fun hh => h hh.symm
      simp [dictUpdate, dictGet, hne]
  | cons kv rest ih =>
      by_cases hk : kv.1 = k
      · subst hk
        have hne : ¬kv.1 = k2 := fun hh => h hh.symm
        simp [dictUpdate, dictGet, hne]
      · simp [dictUpdate, hk, dictGet, ih]

/-! ## Claim theorems -/

/-- C2: for every salt passlib may pick, `verify_password(p, hash(p))` is
true, and for distinct passwords `verify_password(p1, hash(p2))` is false
(the source delegates to passlib bcrypt; "overwhelming probability" is
idealised as certainty by the per-salt injective digest of the model). -/
theorem C2_verify_of_hash (salt : Nat) (p1 p2 : String) :
    verify_password p1 (get_password_hash salt p1) = Except.ok true ∧
    (p1 ≠ p2 → verify_password p1 (get_password_hash salt p2) = Except.ok false) := by
  constructor
  · simp [verify_password, get_password_hash]
  · intro hne
    have hdig : bcryptDigest salt p1 ≠ bcryptDigest salt p2 :=
      fun h => hne (bcryptDigest_inj salt h)
    simp [verify_password, get_password_hash, hdig]

theorem C2_verify_of_hash_witness :
    ("pw1" : String) ≠ "pw2" ∧
    verify_password "pw1" (get_password_hash 5 "pw1") = Except.ok true ∧
    verify_password "pw1" (get_password_hash 5 "pw2") = Except.ok false :=
  ⟨by decide, (C2_verify_of_hash 5 "pw1" "pw2").1,
    (C2_verify_of_hash 5 "pw1" "pw2").2 (by decide)⟩

/-- C6 counterexample: the spec says `verify` never throws on a malformed
hash and returns false; in the code `pwd_context.verify` raises
`UnknownHashError` on a string that is not a recognisable hash, so at the
concrete input `("x", "nothash")` the call raises and does not return
false. -/
theorem C6_malformed_hash_cex :
    verify_password "x" (PHash.malformed "nothash") =
      Except.error PyErr.unknownHashError ∧
    verify_password "x" (PHash.malformed "nothash") ≠ Except.ok false := by
  refine ⟨rfl, ?_⟩
  intro h
  exact Except.noConfusion h

/-- C6 (amended): for every plaintext and every malformed hash string,
`verify_password` raises `UnknownHashError` (it neither returns false nor
ever returns true for such a hash). -/
theorem C6_malformed_hash_raises (p s : String) :
    verify_password p (PHash.malformed s) = Except.error PyErr.unknownHashError :=
  rfl

/-- C3: a login with an unregistered username and a login with a wrong
password for a registered username produce the very same result, the
`HTTPException(400, "Invalid credentials")` rejection — nothing in the
response reveals which field was wrong. -/
theorem C3_auth_failure_indistinguishable
    (db1 db2 : DB) (u1 p1 u2 p2 : String) (now1 now2 : Nat) (user : UserRec)
    (h1 : db1.users.find? (fun u => u.username = u1) = none)
    (h2 : db2.users.find? (fun u => u.username = u2) = some user)
    (h3 : verify_password p2 user.hashed_password = Except.ok false) :
    login u1 p1 now1 db1 = login u2 p2 now2 db2 ∧
    login u1 p1 now1 db1 =
      Except.error (PyErr.httpException 400 "Invalid credentials") := by
  unfold login
  rw [h1, h2]
  simp [h3]

theorem C3_auth_failure_indistinguishable_witness :
    (emptyDB.users.find? (fun u => u.username = "bob") = none) ∧
    ((DB.mk [⟨1, "alice", get_password_hash 3 "pw1"⟩] []).users.find?
      (fun u => u.username = "alice") = some ⟨1, "alice", get_password_hash 3 "pw1"⟩) ∧
    (verify_password "bad" (get_password_hash 3 "pw1") = Except.ok false) ∧
    login "bob" "x" 0 emptyDB =
      login "alice" "bad" 7 (DB.mk [⟨1, "alice", get_password_hash 3 "pw1"⟩] []) :=
  ⟨by decide, by decide, by rfl,
    (C3_auth_failure_indistinguishable emptyDB
      (DB.mk [⟨1, "alice", get_password_hash 3 "pw1"⟩] []) "bob" "x" "alice" "bad"
      0 7 ⟨1, "alice", get_password_hash 3 "pw1"⟩
      (by decide) (by decide) (by rfl)).1⟩

/-- C4: with a user "alice" already present (created with `pw1`), a second
`register("alice", pw2)` hits the `UNIQUE` constraint on commit: the call
fails with `IntegrityError`, the store is unchanged, and exactly one "alice"
row remains, still holding `pw1`'s hash. -/
theorem C4_duplicate_username_rejected (db : DB) (pw1 pw2 : String) (s1 s2 : Nat)
    (h : db.users.any (fun u => u.username = "alice") = false) :
    (register "alice" pw2 s2 (register "alice" pw1 s1 db).1).2 =
      Except.error (PyErr.integrityError "UNIQUE constraint failed: users.username") ∧
    (register "alice" pw2 s2 (register "alice" pw1 s1 db).1).1 =
      (register "alice" pw1 s1 db).1 ∧
    ((register "alice" pw1 s1 db).1.users.filter
        (fun u => u.username = "alice")).map UserRec.hashed_password =
      [get_password_hash s1 pw1] := by
  have hfilter : db.users.filter (fun u => u.username = "alice") = [] := by
    rw [List.filter_eq_nil_iff]
    intro a ha
    have := List.any_eq_false.mp h a ha
    simpa using this
  refine ⟨?_, ?_, ?_⟩ <;>
    simp [register, h, hfilter, List.filter_append, List.any_append]

theorem C4_duplicate_username_rejected_witness :
    (emptyDB.users.any (fun u => u.username = "alice") = false) ∧
    (register "alice" "pw2" 9 (register "alice" "pw1" 4 emptyDB).1).2 =
      Except.error (PyErr.integrityError "UNIQUE constraint failed: users.username") ∧
    (register "alice" "pw2" 9 (register "alice" "pw1" 4 emptyDB).1).1 =
      (register "alice" "pw1" 4 emptyDB).1 ∧
    ((register "alice" "pw1" 4 emptyDB).1.users.filter
        (fun u => u.username = "alice")).map UserRec.hashed_password =
      [get_password_hash 4 "pw1"] :=
  ⟨by decide,
    (C4_duplicate_username_rejected emptyDB "pw1" "pw2" 4 9 (by decide)).1,
    (C4_duplicate_username_rejected emptyDB "pw1" "pw2" 4 9 (by decide)).2.1,
    (C4_duplicate_username_rejected emptyDB "pw1" "pw2" 4 9 (by decide)).2.2⟩

/-- C8 counterexample: the spec says a successful `createUser` returns the
new user identifier; the handler returns the fixed payload
`{"message": "User created"}`.  Two runs that persist users with different
identifiers (1 in an empty store, 2 in a store already holding user 1)
return byte-identical responses, so the response cannot carry the
identifier. -/
theorem C8_response_lacks_identifier :
    (register "alice" "pw" 0 emptyDB).2 =
      (register "alice" "pw" 0 (DB.mk [⟨1, "bob", get_password_hash 0 "x"⟩] [])).2 ∧
    (register "alice" "pw" 0 emptyDB).1.users.map UserRec.id = [1] ∧
    (register "alice" "pw" 0
        (DB.mk [⟨1, "bob", get_password_hash 0 "x"⟩] [])).1.users.map UserRec.id =
      [1, 2] ∧
    (register "alice" "pw" 0 emptyDB).2 = Except.ok ⟨"User created"⟩ :=
  ⟨rfl, by decide, by decide, rfl⟩

/-- C8 (amended): when the username is free, `register` hashes the password,
persists the user under a fresh identifier, and returns the fixed
confirmation message `{"message": "User created"}` — not the identifier. -/
theorem C8_register_persists_returns_message (username password : String)
    (salt : Nat) (db : DB)
    (h : db.users.any (fun u => u.username = username) = false) :
    register username password salt db =
      ({ db with users := db.users ++
          [⟨nextId (db.users.map UserRec.id), username, get_password_hash salt password⟩] },
       Except.ok ⟨"User created"⟩) := by
  simp [register, h]

theorem C8_register_persists_returns_message_witness :
    (emptyDB.users.any (fun u => u.username = "alice") = false) ∧
    register "alice" "pw" 7 emptyDB =
      ({ users := [⟨1, "alice", get_password_hash 7 "pw"⟩], posts := [] },
       Except.ok ⟨"User created"⟩) :=
  ⟨by decide, by
    rw [C8_register_persists_returns_message "alice" "pw" 7 emptyDB (by decide)]
    rfl⟩

/-- C5: `create_access_token` sets the reserved `exp` claim to
`now + expires_delta`, leaves every other claim as supplied, and signs with
the fixed key and algorithm; in particular the `{"sub": "alice"}` token with
the 30-minute delta decodes to subject "alice" and expiry exactly
`now + 1800` seconds. -/
theorem C5_token_expiry_merge (data : ClaimDict) (ttl now : Nat) :
    dictGet (jwtDecode (create_access_token data ttl now)) "exp" =
      some (ClaimVal.time (now + ttl)) ∧
    (∀ k, k ≠ "exp" →
      dictGet (jwtDecode (create_access_token data ttl now)) k = dictGet data k) ∧
    (create_access_token data ttl now).key = SECRET_KEY ∧
    (create_access_token data ttl now).alg = ALGORITHM ∧
    dictGet (jwtDecode (create_access_token [("sub", ClaimVal.str "alice")]
      (ACCESS_TOKEN_EXPIRE_MINUTES * 60) now)) "sub" = some (ClaimVal.str "alice") ∧
    dictGet (jwtDecode (create_access_token [("sub", ClaimVal.str "alice")]
      (ACCESS_TOKEN_EXPIRE_MINUTES * 60) now)) "exp" =
      some (ClaimVal.time (now + 1800)) := by
  refine ⟨?_, ?_, rfl, rfl, ?_, ?_⟩
  · simp [create_access_token, jwtDecode, dictGet_dictUpdate_self]
  · intro k hk
    simp [create_access_token, jwtDecode, dictGet_dictUpdate_ne _ _ _ _ hk]
  · simp [create_access_token, jwtDecode, dictUpdate, dictGet]
  · simp [create_access_token, jwtDecode, dictUpdate, dictGet,
      ACCESS_TOKEN_EXPIRE_MINUTES]

theorem C5_token_expiry_merge_witness :
    ("sub" : String) ≠ "exp" ∧
    dictGet (jwtDecode (create_access_token [("sub", ClaimVal.str "alice")] 1800 1000))
      "sub" = some (ClaimVal.str "alice") ∧
    dictGet (jwtDecode (create_access_token [("sub", ClaimVal.str "alice")] 1800 1000))
      "exp" = some (ClaimVal.time 2800) := by
  refine ⟨by decide, ?_, ?_⟩
  · have h := (C5_token_expiry_merge [("sub", ClaimVal.str "alice")] 1800 1000).2.1
      "sub" (by decide)
    rw [h]; rfl
  · exact (C5_token_expiry_merge [("sub", ClaimVal.str "alice")] 1800 1000).1

/-- C7: with an existing owner, `create_post` persists the row and a
subsequent `get_posts` returns a post carrying the given title, content and
owner. -/
theorem C7_create_post_then_list (t c : String) (o : Nat) (db : DB)
    (_h : db.users.any (fun u => u.id = o) = true) :
    ∃ p ∈ get_posts (create_post t c o db).1,
      p.title = t ∧ p.content = c ∧ p.owner_id = o := by
  refine ⟨⟨nextId (db.posts.map PostRec.id), t, c, o⟩, ?_, rfl, rfl, rfl⟩
  simp [get_posts, create_post]

theorem C7_create_post_then_list_witness :
    ((DB.mk [⟨1, "alice", get_password_hash 0 "pw"⟩] []).users.any
      (fun u => u.id = 1) = true) ∧
    ∃ p ∈ get_posts
        (create_post "T" "C" 1 (DB.mk [⟨1, "alice", get_password_hash 0 "pw"⟩] [])).1,
      p.title = "T" ∧ p.content = "C" ∧ p.owner_id = 1 :=
  ⟨by decide,
    C7_create_post_then_list "T" "C" 1
      (DB.mk [⟨1, "alice", get_password_hash 0 "pw"⟩] []) (by decide)⟩

/-- C1: behaviour of the code at the failing input.  On the empty store
(no user has identifier 999) `create_post("T", "C", 999)` does NOT fail with
a constraint violation: the default SQLite engine never enforces the declared
foreign key, so the dangling post is committed and returned, and a subsequent
`get_posts` lists it. -/
theorem C1_dangling_owner_insert_succeeds :
    emptyDB.users = [] ∧
    (create_post "T" "C" 999 emptyDB).2 = Except.ok ⟨1, "T", "C", 999⟩ ∧
    get_posts (create_post "T" "C" 999 emptyDB).1 = [⟨1, "T", "C", 999⟩] :=
  ⟨rfl, rfl, rfl⟩

/-- C9 counterexample: a GraphQL request acquires its session through
`get_context`, which never closes it: starting from zero open sessions, the
`posts` query over the empty store ends with one session still open, so the
session is not released when the request ends. -/
theorem C9_graphql_session_leaked :
    (runGraphql graphqlPosts emptyDB 0).2 = 1 ∧
    (runGraphql graphqlPosts emptyDB 0).2 ≠ 0 :=
  ⟨rfl, by decide⟩

/-- C9 (amended): a REST request's session, acquired through `get_db`, is
released on every exit path — the `finally` of `get_db` runs whether the
handler returned or raised — while a GraphQL request's session, acquired in
`get_context`, is never released and stays open after the request ends. -/
theorem C9_rest_releases_graphql_leaks :
    (∀ (α : Type) (handler : DB → DB × Except PyErr α) (db : DB) (n : Nat),
      (runRest handler db n).2 = n) ∧
    (∀ (α : Type) (resolver : DB → Except PyErr α) (db : DB) (n : Nat),
      (runGraphql resolver db n).2 = n + 1) := by
  exact ⟨fun α handler db n => rfl, fun α resolver db n => rfl⟩

/-- C10: the resolver builds each `PostType` without the required `owner_id`
field, so on any store with at least one post the GraphQL `posts` query
raises `TypeError` instead of returning the list; the only value it can ever
return is the empty list, so no owner information is ever returned. -/
theorem C10_graphql_posts_type_error (db : DB) :
    (db.posts ≠ [] →
      graphqlPosts db = Except.error (PyErr.typeError "missing required argument")) ∧
    (∀ l, graphqlPosts db = Except.ok l → l = []) := by
  constructor
  · intro h
    match hd : db.posts with
    | [] => exact absurd hd h
    | p :: ps =>
        simp [graphqlPosts, hd, mapExcept, postsResolverItem, mkPostType]
  · intro l hl
    cases hd : db.posts with
    | nil =>
        rw [graphqlPosts, hd] at hl
        simp [mapExcept] at hl
        exact hl
    | cons p ps =>
        rw [graphqlPosts, hd] at hl
        simp [mapExcept, postsResolverItem, mkPostType] at hl

theorem C10_graphql_posts_type_error_witness :
    ((DB.mk [] [⟨1, "T", "C", 1⟩]).posts ≠ []) ∧
    graphqlPosts (DB.mk [] [⟨1, "T", "C", 1⟩]) =
      Except.error (PyErr.typeError "missing required argument") ∧
    ([] : List PostType) = [] :=
  ⟨by decide,
    (C10_graphql_posts_type_error (DB.mk [] [⟨1, "T", "C", 1⟩])).1 (by decide),
    (C10_graphql_posts_type_error emptyDB).2 [] rfl⟩
